import Mathlib

/-!
Verification of the rr-mcp-server repository: a shallow embedding of the
command/response synchronization layer (`rr_controller.py`), the LLDB
remote-attach variant (`lldb_rr_controller.py`), and the MCP tool layer
(`rr_mcp_server.py`), together with proofs of the specified properties.

Python `str` values are modelled as lists of characters (`Str`); pygdbmi
message dictionaries become the `Msg` structure; the asynchronous back-end
channel of a controller is modelled by the batches of messages it delivers:
the immediate responses returned by a `write`, and the successive batches
returned by the `get_gdb_response` poll loop.  Exceptions are modelled with
`Except`, and a loop that would block forever is modelled by `Option.none`.
-/

namespace RRMCP

/-- Python strings, modelled as their character sequences. -/
abbrev Str := List Char

/-- The character sequence of a Lean string literal. -/
def str (s : String) : Str := s.data

/-- One pygdbmi message dictionary: keys `type`, `message` and `payload`
(`payload` is `None` or a string). -/
structure Msg where
  type : String
  message : String
  payload : Option Str
deriving DecidableEq, Repr

/-- State of an `RRController` (src/rr_controller.py): its trace directory and
the back-end channel it owns.  `alive` records whether the spawned gdb/rr
process is still running (a `write` on a dead process raises in the channel
library, per spec §5 the channel fails rather than hangs once the back-end is
gone); `immediate` holds the responses the next `write` returns; `polls` holds
the batches the successive `get_gdb_response` calls return, an empty batch
being a timeout. -/
structure RRController where
  trace_dir : String
  alive : Bool
  immediate : List Msg
  polls : List (List Msg)
deriving DecidableEq, Repr

namespace RRController

/-- `RRController._check_wait_result` (src/rr_controller.py lines 25-31):
scans a response batch for a message whose `(type, message)` pair is in the
target list. -/
def check_wait_result (resps : List Msg) (targets : List (String × String)) : Bool :=
  resps.any (fun resp => targets.contains (resp.type, resp.message))

/-- `RRController._wait` (src/rr_controller.py lines 33-46): repeatedly polls
the channel, accumulating every returned message, until a batch contains a
target.  Each `get_gdb_response` call consumes one entry of `batches`; an
empty batch is a timeout and the loop just continues.  The result pairs the
accumulated messages with the number of polls performed; `none` models the
Python loop never observing a target (it would block forever). -/
def wait (batches : List (List Msg)) (targets : List (String × String)) :
    Option (List Msg × Nat) :=
  match batches with
  | [] => none
  | b :: rest =>
    if b.isEmpty then (wait rest targets).map (fun p => (p.1, p.2 + 1))
    else if check_wait_result b targets then some (b, 1)
    else (wait rest targets).map (fun p => (b ++ p.1, p.2 + 1))

/-- The pygdbmi `write` call underlying `RRController.run_cmd`: returns the
immediate responses, raising `NoGdbProcessError` when the gdb process is no
longer running. -/
def write (s : RRController) (_cmd : String) : Except Str (List Msg) :=
  if s.alive then .ok s.immediate
  else .error (str "NoGdbProcessError: gdb process is not running")

/-- The `run_cmd` method of `RRController` (src/rr_controller.py lines 48-52):
writes the command and returns the immediate responses (logging omitted).
Named `run_command` here because `run_cmd` is a Lean command keyword. -/
def run_command (s : RRController) (cmd : String) : Except Str (List Msg) :=
  s.write cmd

/-- `RRController._run_cmd_and_wait` (src/rr_controller.py lines 54-58): runs
the command, returns the immediate batch if it already contains a target, and
otherwise appends the result of the poll loop.  The `Nat` component counts the
polls performed (0 on the immediate-match path). -/
def run_cmd_and_wait (s : RRController) (cmd : String)
    (targets : List (String × String)) : Except Str (Option (List Msg × Nat)) :=
  match s.run_command cmd with
  | .error e => .error e
  | .ok resps =>
    if check_wait_result resps targets then .ok (some (resps, 0))
    else .ok ((wait s.polls targets).map (fun p => (resps ++ p.1, p.2)))

/-- The default target set of `run_cmd_and_wait_stop`
(src/rr_controller.py lines 62-66). -/
def stop_targets : List (String × String) :=
  [("notify", "stopped"), ("result", "done"), ("result", "error")]

/-- The filtering step of `run_cmd_and_wait_stop` (src/rr_controller.py
line 68): keep the accumulated messages that are not notifications and whose
payload is not `None`. -/
def settle_filter (oresps : List Msg) : List Msg :=
  oresps.filter (fun resp => resp.type != "notify" && resp.payload.isSome)

/-- The concatenation step of `run_cmd_and_wait_stop` (src/rr_controller.py
line 69): join the retained payloads in arrival order. -/
def settle_output (oresps : List Msg) : Str :=
  ((settle_filter oresps).map (fun resp => resp.payload.getD [])).flatten

/-- The output bound of src/rr_controller.py lines 70-72 and
src/lldb_rr_controller.py lines 286-288 (`max_len = 1024 * 6`): outputs longer
than 6144 characters are cut at 6144 and get an ellipsis marker appended. -/
def truncate_output (s : Str) : Str :=
  if s.length > 1024 * 6 then s.take (1024 * 6) ++ str "..." else s

/-- `RRController.run_cmd_and_wait_stop` (src/rr_controller.py lines 60-74):
run the command, wait for a stop/done/error target, filter and concatenate the
accumulated payloads, and bound the length. -/
def run_cmd_and_wait_stop (s : RRController) (cmd : String) :
    Except Str (Option Str) :=
  match s.run_cmd_and_wait cmd stop_targets with
  | .error e => .error e
  | .ok none => .ok none
  | .ok (some (oresps, _)) => .ok (some (truncate_output (settle_output oresps)))

/-- The target set of `RRController.exit` (src/rr_controller.py line 77). -/
def exit_targets : List (String × String) := [("notify", "thread-group-exited")]

/-- `RRController.exit` (src/rr_controller.py lines 76-77): submits `exit` and
waits for the thread-group-exited notification.  Note that it installs no
exception handling and clears no controller state. -/
def exit (s : RRController) : Except Str (Option (List Msg × Nat)) :=
  s.run_cmd_and_wait "exit" exit_targets

/-- The back-end after a settled `exit`: the `exit` command terminates the
gdb/rr process (its settling target is the thread-group-exited notification),
so afterwards the channel's process is dead.  The controller object itself is
unchanged — `RRController.exit` assigns no attribute. -/
def exit_post (s : RRController) : RRController := { s with alive := false }

end RRController

/-- State of the `RRMCPServer` (src/rr_mcp_server.py lines 36-49): the current
controller, if any, and the current trace directory. -/
structure RRMCPServer where
  rr_ctrl : Option RRController
  rr_trace_dir : Option String
deriving DecidableEq, Repr

/-- `RRReplayResult` (src/rr_mcp_server.py lines 23-24). -/
structure RRReplayResult where
  succ : Bool
  err_msg : Str
  result : Str
deriving DecidableEq, Repr

/-- `RunCmdResult` (src/rr_mcp_server.py lines 26-28). -/
structure RunCmdResult where
  succ : Bool
  err_msg : Str
  cmd : String
  cmd_result : Str
deriving DecidableEq, Repr

/-- `ReadFileResult` (src/rr_mcp_server.py lines 30-34). -/
structure ReadFileResult where
  succ : Bool
  err_msg : Str
  file_path : String
  start_line : Int
  end_line : Int
  content : Str
deriving DecidableEq, Repr

namespace RRMCPServer

/-- `RRMCPServer.rr_replay` (src/rr_mcp_server.py lines 51-58): if a session is
current, call its `exit` — with no exception handling, so an `exit` failure
propagates to the caller before any state is assigned — then store the new
trace directory and controller.  `fresh` stands for the controller the
`RRController(rr_trace_dir)` constructor returns.  The outer `Option` is
`none` when `exit` never settles (the Python call would block forever). -/
def rr_replay (st : RRMCPServer) (dir : String) (fresh : RRController) :
    Option (Except Str (Str × RRMCPServer)) :=
  match st.rr_ctrl with
  | some s =>
    match s.exit with
    | .error e => some (.error e)
    | .ok none => none
    | .ok (some _) =>
        some (.ok (str "Successfully started replay session for " ++ str dir,
          { rr_ctrl := some fresh, rr_trace_dir := some dir }))
  | none =>
      some (.ok (str "Successfully started replay session for " ++ str dir,
        { rr_ctrl := some fresh, rr_trace_dir := some dir }))

/-- The `run_cmd` method of `RRMCPServer` (src/rr_mcp_server.py lines 60-65):
raises `ValueError` when no replay session has been started, otherwise
delegates to the controller.  The server state is not modified. -/
def run_command (st : RRMCPServer) (cmd : String) : Except Str (Option Str) :=
  match st.rr_ctrl with
  | none => .error (str "No replay session started")
  | some s => s.run_cmd_and_wait_stop cmd

end RRMCPServer

/-- The `rr_replay` tool (src/rr_mcp_server.py lines 71-89): wraps
`RRMCPServer.rr_replay`, catching any exception into `err_msg` with
`succ = False`; on success `succ = True` and the message is stored in
`result`.  The second component is the server state after the call. -/
def tool_rr_replay (st : RRMCPServer) (dir : String) (fresh : RRController) :
    Option (RRReplayResult × RRMCPServer) :=
  match st.rr_replay dir fresh with
  | none => none
  | some (.error e) => some ({ succ := false, err_msg := e, result := [] }, st)
  | some (.ok (msg, st2)) => some ({ succ := true, err_msg := [], result := msg }, st2)

/-- The `run_cmd` tool (src/rr_mcp_server.py lines 91-109): wraps the server's
`run_cmd` method, catching any exception into `err_msg` with `succ = False`
(the registered function also has a spurious unused `self` parameter, which
does not affect the body).  `none` models the wait never settling. -/
def tool_run_command (st : RRMCPServer) (cmd : String) :
    Option (RunCmdResult × RRMCPServer) :=
  match st.run_command cmd with
  | .error e => some ({ succ := false, err_msg := e, cmd := cmd, cmd_result := [] }, st)
  | .ok none => none
  | .ok (some r) => some ({ succ := true, err_msg := [], cmd := cmd, cmd_result := r }, st)

/-- The outcome of `open(file_path)` + `readlines()` in the `read_file` tool:
the file is missing, read permission is denied, or it is readable with the
given lines (each line keeping its trailing newline, as `readlines` does). -/
inductive FileAccess where
  | missing
  | denied
  | readable (lines : List Str)
deriving DecidableEq, Repr

/-- The `read_file` tool (src/rr_mcp_server.py lines 111-158): validates
`start_line >= 1`, clamps `end_line` to the number of lines, validates
`start_line <= end_line` on the clamped value, and joins the 1-indexed
inclusive line range (`lines[start_line - 1 : end_line]`).  The result keeps
the originally passed `start_line`/`end_line` (the clamp rebinds only the
local variable).  All failures are structured: `succ = False`, a descriptive
`err_msg`, and the default empty `content`. -/
def tool_read_file (acc : FileAccess) (file_path : String)
    (start_line end_line : Int) : ReadFileResult :=
  let base : ReadFileResult :=
    { succ := false, err_msg := [], file_path := file_path,
      start_line := start_line, end_line := end_line, content := [] }
  match acc with
  | .missing =>
      { base with
          err_msg := str "Error: File '" ++ str file_path ++ str "' not found." }
  | .denied =>
      { base with
          err_msg := str "Error: Permission denied to read '" ++ str file_path ++
            str "'." }
  | .readable lines =>
      if start_line < 1 then
        { base with
            err_msg := str "Error: start_line " ++ str (toString start_line) ++
              str " must be >= 1." }
      else
        let end2 : Int :=
          if end_line > (lines.length : Int) then (lines.length : Int) else end_line
        if start_line > end2 then
          { base with
              err_msg := str "Error: start_line " ++ str (toString start_line) ++
                str " is greater than end_line " ++ str (toString end2) ++ str "." }
        else
          { base with
              succ := true,
              content := ((lines.take end2.toNat).drop (start_line.toNat - 1)).flatten }

/-- The `SBCommandReturnObject` produced by the LLDB command interpreter for
one command: its normal output text and its error text
(src/lldb_rr_controller.py lines 244-258; an absent text is the empty
string, which Python's truthiness test skips). -/
structure SBCommandReturnObject where
  output : Str
  error : Str
deriving DecidableEq, Repr

/-- State of an `LLDBRRController` (src/lldb_rr_controller.py): for each held
handle, `none` models the attribute being `None` and `some v` models a present
handle whose `IsValid()` returns `v`; `rr_process_alive` models
`rr_process.poll() is None`. -/
structure LLDBRRController where
  debugger : Option Bool
  target : Option Bool
  process : Option Bool
  rr_process_alive : Bool
deriving DecidableEq, Repr

namespace LLDBRRController

/-- The `run_cmd` method of `LLDBRRController` (src/lldb_rr_controller.py
lines 226-290): raises when the debugger handle is absent or invalid;
otherwise hands the command to the interpreter, collects the output and then
the error text (each only when non-empty, though joining an empty part would
change nothing), and bounds the length exactly as `RRController` does.  The
stop-reason block (lines 267-283) only logs and contributes nothing to the
returned value, so it does not appear here. -/
def run_command (c : LLDBRRController) (ret : SBCommandReturnObject)
    (_cmd : String) : Except Str Str :=
  if c.debugger = some true then
    let output_parts : List Str :=
      (if ret.output.isEmpty then [] else [ret.output]) ++
      (if ret.error.isEmpty then [] else [ret.error])
    .ok (RRController.truncate_output output_parts.flatten)
  else
    .error (str "LLDB debugger is not initialized")

/-- `LLDBRRController.run_cmd_and_wait_stop` (src/lldb_rr_controller.py
lines 292-296): a plain alias for `run_cmd`, kept for interface compatibility
with `RRController` — in synchronous LLDB mode the command already blocks
until completion, so no poll loop exists in this mode. -/
def run_cmd_and_wait_stop (c : LLDBRRController) (ret : SBCommandReturnObject)
    (cmd : String) : Except Str Str :=
  c.run_command ret cmd

/-- `LLDBRRController.exit` (src/lldb_rr_controller.py lines 316-348) as a
state transition.  The whole body sits in a `try/except` with a `finally`, so
it never raises.  `process.Kill()` assigns no attribute (so the `process`
field is unchanged); `DeleteTarget` + `self.target = None` runs only when the
target handle is present and valid; `_cleanup` (lines 298-314) terminates the
rr process when it is still running, so afterwards it is not running either
way; `Destroy` + `self.debugger = None` runs only when the debugger handle is
present and valid; the final `Terminate()` is a global LLDB call with no
per-controller state. -/
def exit (c : LLDBRRController) : LLDBRRController :=
  { debugger := if c.debugger = some true then none else c.debugger,
    target := if c.target = some true then none else c.target,
    process := c.process,
    rr_process_alive := false }

end LLDBRRController

/-- The settled output as the specification words it: the concatenation, in
original order, of the payloads of exactly those messages that are not
asynchronous notifications and have a non-empty payload.  Stated from the
spec's "Filtering law", to be compared with `RRController.settle_output`,
which the source computes by dropping `None` payloads instead. -/
def spec_settled_output (oresps : List Msg) : Str :=
  ((oresps.filter
      (fun resp => resp.type != "notify" && !(resp.payload.getD []).isEmpty)).map
    (fun resp => resp.payload.getD [])).flatten

/-- A list with a non-empty left part of an append is non-empty. -/
theorem append_ne_nil_left {α : Type} (l₁ l₂ : List α) (h : l₁ ≠ []) :
    l₁ ++ l₂ ≠ [] :=
  fun hc => h (List.append_eq_nil.mp hc).1

/-- The source's filter (drop notifications and `None` payloads, line 68 of
src/rr_controller.py) concatenates to the same string as the spec's filter
(drop notifications and empty payloads): a retained `payload = some []`
contributes nothing to the concatenation. -/
theorem settle_output_eq_spec (oresps : List Msg) :
    RRController.settle_output oresps = spec_settled_output oresps := by
  induction oresps with
  | nil => rfl
  | cons m t ih =>
    simp only [RRController.settle_output, RRController.settle_filter,
      spec_settled_output, List.filter_cons] at ih ⊢
    by_cases hn : (m.type != "notify") = true
    · cases hp : m.payload with
      | none => simpa [hn, hp] using ih
      | some p =>
        by_cases he : p.isEmpty = true
        · have hpe : p = [] := by simpa using he
          simpa [hn, hp, hpe] using ih
        · simpa [hn, hp, he] using ih
    · simpa [hn] using ih

/-- `LLDBRRController.run_cmd` on a valid debugger returns exactly the normal
output followed by the error text, bounded: skipping an empty part does not
change the concatenation. -/
theorem lldb_run_command_eq (c : LLDBRRController) (ret : SBCommandReturnObject)
    (cmd : String) (h : c.debugger = some true) :
    c.run_command ret cmd =
      .ok (RRController.truncate_output (ret.output ++ ret.error)) := by
  rcases ret with ⟨o, e⟩
  cases o <;> cases e <;> simp [LLDBRRController.run_command, h]

/-- C1: for every finished command wait, the settled output computed by
`run_cmd_and_wait_stop` (line 69, before the length bound of lines 70-72)
equals the concatenation, in arrival order, of the payloads of exactly the
accumulated messages that are not asynchronous notifications and have a
non-empty payload, and the returned text is that concatenation bounded;
notification payloads and payload-less messages never appear in it. -/
theorem c1_filtering_law (s : RRController) (cmd : String) (oresps : List Msg)
    (k : Nat)
    (h : s.run_cmd_and_wait cmd RRController.stop_targets = .ok (some (oresps, k))) :
    RRController.settle_output oresps = spec_settled_output oresps ∧
    s.run_cmd_and_wait_stop cmd =
      .ok (some (RRController.truncate_output (spec_settled_output oresps))) := by
  refine ⟨settle_output_eq_spec oresps, ?_⟩
  simp [RRController.run_cmd_and_wait_stop, h, settle_output_eq_spec]

/-- Witness for C1 at a concrete message sequence: a notification with a
payload, a result with a payload, and a payload-less message. -/
theorem c1_filtering_law_witness :
    RRController.run_cmd_and_wait_stop
      ⟨"trace", true,
        [⟨"notify", "stopped", some (str "NOTE")⟩,
         ⟨"result", "done", some (str "ok")⟩,
         ⟨"log", "x", none⟩], []⟩ "bt" =
      .ok (some (RRController.truncate_output (spec_settled_output
        [⟨"notify", "stopped", some (str "NOTE")⟩,
         ⟨"result", "done", some (str "ok")⟩,
         ⟨"log", "x", none⟩]))) :=
  (c1_filtering_law
    ⟨"trace", true,
      [⟨"notify", "stopped", some (str "NOTE")⟩,
       ⟨"result", "done", some (str "ok")⟩,
       ⟨"log", "x", none⟩], []⟩ "bt"
    [⟨"notify", "stopped", some (str "NOTE")⟩,
     ⟨"result", "done", some (str "ok")⟩,
     ⟨"log", "x", none⟩] 0 rfl).2

/-- C2: outputs of at most 6144 characters are returned unmodified; longer
outputs are returned as exactly their first 6144 characters followed by the
`...` marker, so the returned length is 6144 plus the marker length and the
text ends with the marker.  Both the structured-message mode
(`RRController.run_cmd_and_wait_stop`) and the remote-attach mode
(`LLDBRRController.run_cmd`) apply this bound to their settled output. -/
theorem c2_truncation_law (s : Str) (sess : RRController) (cmd : String)
    (oresps : List Msg) (k : Nat) (ret : SBCommandReturnObject)
    (t p : Option Bool) (r : Bool) :
    (s.length ≤ 6144 → RRController.truncate_output s = s) ∧
    (6144 < s.length →
      RRController.truncate_output s = s.take 6144 ++ str "..." ∧
      (RRController.truncate_output s).length = 6144 + (str "...").length ∧
      str "..." <:+ RRController.truncate_output s) ∧
    (sess.run_cmd_and_wait cmd RRController.stop_targets = .ok (some (oresps, k)) →
      sess.run_cmd_and_wait_stop cmd =
        .ok (some (RRController.truncate_output (RRController.settle_output oresps)))) ∧
    LLDBRRController.run_command ⟨some true, t, p, r⟩ ret cmd =
      .ok (RRController.truncate_output (ret.output ++ ret.error)) := by
  refine ⟨?_, ?_, ?_, lldb_run_command_eq _ ret cmd rfl⟩
  · intro hle
    simp [RRController.truncate_output, Nat.not_lt.mpr hle]
  · intro hlt
    have heq : RRController.truncate_output s = s.take 6144 ++ str "..." := by
      simp [RRController.truncate_output, hlt]
    refine ⟨heq, ?_, ?_⟩
    · rw [heq]
      simp [List.length_take, Nat.min_eq_left hlt.le]
    · rw [heq]
      exact List.suffix_append _ _
  · intro h
    simp [RRController.run_cmd_and_wait_stop, h]

/-- Witness for C2: a short output returned unmodified, a 6145-character
output bounded to length 6147, and the structured-message mode applying the
bound to a concrete settled wait. -/
theorem c2_truncation_law_witness :
    RRController.truncate_output (str "ok") = str "ok" ∧
    (RRController.truncate_output (List.replicate 6145 'a')).length =
      6144 + (str "...").length ∧
    RRController.run_cmd_and_wait_stop
      ⟨"trace", true, [⟨"result", "done", some (str "ok")⟩], []⟩ "bt" =
      .ok (some (RRController.truncate_output (RRController.settle_output
        [⟨"result", "done", some (str "ok")⟩]))) := by
  refine ⟨?_, ?_, ?_⟩
  · exact (c2_truncation_law (str "ok") ⟨"t", true, [], []⟩ "bt" [] 0 ⟨[], []⟩
      none none false).1 (by decide)
  · exact ((c2_truncation_law (List.replicate 6145 'a') ⟨"t", true, [], []⟩ "bt"
      [] 0 ⟨[], []⟩ none none false).2.1
      (by rw [List.length_replicate]; norm_num)).2.1
  · exact (c2_truncation_law (str "ok")
      ⟨"trace", true, [⟨"result", "done", some (str "ok")⟩], []⟩ "bt"
      [⟨"result", "done", some (str "ok")⟩] 0 ⟨[], []⟩ none none false).2.2.1 rfl

/-- C3: when the immediate response batch of a submitted command already
contains a target message, `_run_cmd_and_wait` returns that batch alone and
the poll loop is never entered — the poll count of the result is 0 and the
channel's poll batches are untouched. -/
theorem c3_immediate_match (s : RRController) (cmd : String)
    (targets : List (String × String)) (halive : s.alive = true)
    (h : RRController.check_wait_result s.immediate targets = true) :
    s.run_cmd_and_wait cmd targets = .ok (some (s.immediate, 0)) := by
  simp [RRController.run_cmd_and_wait, RRController.run_command,
    RRController.write, halive, h]

/-- Witness for C3: the immediate batch holds a done result, and the pending
poll batch is never consumed. -/
theorem c3_immediate_match_witness :
    RRController.run_cmd_and_wait
      ⟨"trace", true, [⟨"result", "done", some (str "ok")⟩],
        [[⟨"notify", "stopped", none⟩]]⟩ "bt" RRController.stop_targets =
      .ok (some ([⟨"result", "done", some (str "ok")⟩], 0)) :=
  c3_immediate_match _ "bt" _ rfl (by decide)

/-- C4: invoking the `run_cmd` tool with no current session yields a
structured failure — `succ = false`, a non-empty error message — without any
exception crossing the tool boundary, and the server state (current session
and trace directory) is returned unchanged. -/
theorem c4_no_session_error (td : Option String) (cmd : String) :
    tool_run_command ⟨none, td⟩ cmd =
      some ({ succ := false, err_msg := str "No replay session started",
              cmd := cmd, cmd_result := [] }, ⟨none, td⟩) ∧
    str "No replay session started" ≠ [] :=
  ⟨rfl, by decide⟩

/-- Counterexample to C5 as stated: with a current session whose back-end is
already dead, `rr_replay` calls the previous session's `exit` with no
exception handling, so the failure is raised to the caller (surfacing at the
tool boundary as a failed result), the new session is never constructed, and
the old session is still the current one afterwards — the failure is not
merely logged. -/
theorem c5_counterexample :
    tool_rr_replay ⟨some ⟨"old", false, [], []⟩, some "old"⟩ "new"
        ⟨"new", true, [], []⟩ =
      some ({ succ := false,
              err_msg := str "NoGdbProcessError: gdb process is not running",
              result := [] },
            ⟨some ⟨"old", false, [], []⟩, some "old"⟩) := rfl

/-- C5 (amended): whenever `start_session` is invoked while a session is
current, the previous session is commanded to terminate before the new one is
constructed; if that termination raises, the exception propagates (the tool
boundary reports a failed result and the old session remains current); if it
settles, exactly one current session — the new one — exists afterwards. -/
theorem c5_session_replacement (st : RRMCPServer) (dir : String)
    (fresh s : RRController) (hs : st.rr_ctrl = some s) :
    (∀ e, s.exit = .error e →
      tool_rr_replay st dir fresh =
        some ({ succ := false, err_msg := e, result := [] }, st)) ∧
    (∀ oresps k, s.exit = .ok (some (oresps, k)) →
      tool_rr_replay st dir fresh =
        some ({ succ := true, err_msg := [],
                result := str "Successfully started replay session for " ++ str dir },
              ⟨some fresh, some dir⟩)) := by
  constructor
  · intro e he
    simp [tool_rr_replay, RRMCPServer.rr_replay, hs, he]
  · intro oresps k hk
    simp [tool_rr_replay, RRMCPServer.rr_replay, hs, hk]

/-- Witness for C5: a dead previous session propagates its exit failure and
keeps the old state; a previous session that settles its exit is replaced by
exactly the new session. -/
theorem c5_session_replacement_witness :
    tool_rr_replay ⟨some ⟨"o", false, [], []⟩, none⟩ "d" ⟨"d", true, [], []⟩ =
      some ({ succ := false,
              err_msg := str "NoGdbProcessError: gdb process is not running",
              result := [] },
            ⟨some ⟨"o", false, [], []⟩, none⟩) ∧
    tool_rr_replay
        ⟨some ⟨"o", true, [⟨"notify", "thread-group-exited", none⟩], []⟩, none⟩
        "d" ⟨"d", true, [], []⟩ =
      some ({ succ := true, err_msg := [],
              result := str "Successfully started replay session for " ++ str "d" },
            ⟨some ⟨"d", true, [], []⟩, some "d"⟩) := by
  constructor
  · exact (c5_session_replacement ⟨some ⟨"o", false, [], []⟩, none⟩ "d"
      ⟨"d", true, [], []⟩ ⟨"o", false, [], []⟩ rfl).1
      (str "NoGdbProcessError: gdb process is not running") rfl
  · exact (c5_session_replacement
      ⟨some ⟨"o", true, [⟨"notify", "thread-group-exited", none⟩], []⟩, none⟩ "d"
      ⟨"d", true, [], []⟩
      ⟨"o", true, [⟨"notify", "thread-group-exited", none⟩], []⟩ rfl).2
      [⟨"notify", "thread-group-exited", none⟩] 0 rfl

/-- Counterexample to C6 as stated: `RRController.exit` installs no exception
handling and clears no state, so after a first `exit` settles (terminating the
back-end), a second `exit` re-submits the command to the dead process and the
channel write raises — calling close twice in a row throws in the
structured-message mode. -/
theorem c6_counterexample :
    RRController.exit
        (⟨"t", true, [⟨"notify", "thread-group-exited", none⟩], []⟩ : RRController) =
      .ok (some ([⟨"notify", "thread-group-exited", none⟩], 0)) ∧
    RRController.exit
        (RRController.exit_post
          ⟨"t", true, [⟨"notify", "thread-group-exited", none⟩], []⟩) =
      .error (str "NoGdbProcessError: gdb process is not running") :=
  ⟨rfl, rfl⟩

/-- C6 (amended): close is idempotent in the remote-attach mode only:
`LLDBRRController.exit` never raises (its whole body is guarded) and applying
it twice yields the same controller state as applying it once; the
structured-message `RRController.exit`, by contrast, clears no state and its
second invocation raises on the dead back-end. -/
theorem c6_lldb_close_idempotent (c : LLDBRRController) :
    (c.exit).exit = c.exit := by
  by_cases hd : c.debugger = some true <;> by_cases ht : c.target = some true <;>
    simp [LLDBRRController.exit, hd, ht]

/-- C7: `read_file` succeeds exactly on a readable file with
`1 ≤ start_line ≤ min end_line (number of lines)`, returning the 1-indexed
inclusive line range with `end_line` clamped to the file's line count, and
fails with `succ = false`, empty content and a non-empty descriptive message
when the file is missing, when permission is denied, when `start_line < 1`,
and when `start_line` exceeds the clamped `end_line`. -/
theorem c7_read_file (file_path : String) (start_line end_line : Int)
    (lines : List Str) :
    ((tool_read_file .missing file_path start_line end_line).succ = false ∧
     (tool_read_file .missing file_path start_line end_line).content = [] ∧
     (tool_read_file .missing file_path start_line end_line).err_msg ≠ []) ∧
    ((tool_read_file .denied file_path start_line end_line).succ = false ∧
     (tool_read_file .denied file_path start_line end_line).content = [] ∧
     (tool_read_file .denied file_path start_line end_line).err_msg ≠ []) ∧
    (start_line < 1 →
      (tool_read_file (.readable lines) file_path start_line end_line).succ = false ∧
      (tool_read_file (.readable lines) file_path start_line end_line).content = [] ∧
      (tool_read_file (.readable lines) file_path start_line end_line).err_msg ≠ []) ∧
    (1 ≤ start_line → min end_line (lines.length : Int) < start_line →
      (tool_read_file (.readable lines) file_path start_line end_line).succ = false ∧
      (tool_read_file (.readable lines) file_path start_line end_line).content = [] ∧
      (tool_read_file (.readable lines) file_path start_line end_line).err_msg ≠ []) ∧
    (1 ≤ start_line → start_line ≤ min end_line (lines.length : Int) →
      tool_read_file (.readable lines) file_path start_line end_line =
        { succ := true, err_msg := [], file_path := file_path,
          start_line := start_line, end_line := end_line,
          content := ((lines.take (min end_line (lines.length : Int)).toNat).drop
            (start_line.toNat - 1)).flatten }) := by
  have hmin : (if end_line > (lines.length : Int) then (lines.length : Int)
      else end_line) = min end_line (lines.length : Int) := by
    split_ifs <;> omega
  refine ⟨⟨rfl, rfl, ?_⟩, ⟨rfl, rfl, ?_⟩, ?_, ?_, ?_⟩
  · exact append_ne_nil_left _ _ (append_ne_nil_left _ _ (by decide))
  · exact append_ne_nil_left _ _ (append_ne_nil_left _ _ (by decide))
  · intro h1
    refine ⟨?_, ?_, ?_⟩
    · simp [tool_read_file, if_pos h1]
    · simp [tool_read_file, if_pos h1]
    · simp only [tool_read_file, if_pos h1]
      exact append_ne_nil_left _ _ (append_ne_nil_left _ _ (by decide))
  · intro h1 h2
    simp only [tool_read_file, hmin]
    rw [if_neg (by omega), if_pos (by omega)]
    exact ⟨rfl, rfl, append_ne_nil_left _ _ (append_ne_nil_left _ _
      (append_ne_nil_left _ _ (append_ne_nil_left _ _ (by decide))))⟩
  · intro h1 h2
    simp only [tool_read_file, hmin]
    rw [if_neg (by omega), if_neg (by omega)]

/-- Witness for C7 on a three-line file: a successful clamped read, a
start-line-too-small failure, and a start-past-clamped-end failure. -/
theorem c7_read_file_witness :
    tool_read_file (.readable [str "a\n", str "b\n", str "c\n"]) "f" 2 10 =
      { succ := true, err_msg := [], file_path := "f", start_line := 2,
        end_line := 10,
        content := ((([str "a\n", str "b\n", str "c\n"]).take
          (min (10 : Int) (([str "a\n", str "b\n", str "c\n"].length : Int))).toNat).drop
          ((2 : Int).toNat - 1)).flatten } ∧
    (tool_read_file (.readable [str "a\n", str "b\n", str "c\n"]) "f" 0 2).succ =
      false ∧
    (tool_read_file (.readable [str "a\n", str "b\n", str "c\n"]) "f" 5 2).succ =
      false := by
  refine ⟨?_, ?_, ?_⟩
  · exact (c7_read_file "f" 2 10 [str "a\n", str "b\n", str "c\n"]).2.2.2.2
      (by decide) (by decide)
  · exact ((c7_read_file "f" 0 2 [str "a\n", str "b\n", str "c\n"]).2.2.1
      (by decide)).1
  · exact ((c7_read_file "f" 5 2 [str "a\n", str "b\n", str "c\n"]).2.2.2.1
      (by decide) (by decide)).1

/-- C8: in the remote-attach mode `run_cmd_and_wait_stop` is definitionally
`run_cmd` — no poll loop exists in this mode, the stop-state inspection only
logs, and both controllers expose the same start/run-and-settle contract. -/
theorem c8_lldb_alias (c : LLDBRRController) (ret : SBCommandReturnObject)
    (cmd : String) :
    c.run_cmd_and_wait_stop ret cmd = c.run_command ret cmd := rfl

/-- C9: the clamp of `end_line` to the file's line count runs before the
`start_line > end_line` validation: a request with `1 ≤ start_line ≤ end_line`
but `start_line` past the file's last line fails with the
start-line-greater-than-end-line message reporting the clamped value (the
file's line count) — in particular every request against an empty file fails
this way — rather than returning empty or clamped content. -/
theorem c9_clamp_before_validation (file_path : String)
    (start_line end_line : Int) (lines : List Str) (h1 : 1 ≤ start_line)
    (h2 : start_line ≤ end_line) (h3 : (lines.length : Int) < start_line) :
    tool_read_file (.readable lines) file_path start_line end_line =
      { succ := false,
        err_msg := str "Error: start_line " ++ str (toString start_line) ++
          str " is greater than end_line " ++
          str (toString (lines.length : Int)) ++ str ".",
        file_path := file_path, start_line := start_line, end_line := end_line,
        content := [] } := by
  have hclamp : (if end_line > (lines.length : Int) then (lines.length : Int)
      else end_line) = (lines.length : Int) := by
    split_ifs <;> omega
  simp only [tool_read_file, hclamp]
  rw [if_neg (by omega), if_pos (by omega)]

/-- Witness for C9: any range requested of an empty file fails with the
clamped message. -/
theorem c9_clamp_before_validation_witness :
    tool_read_file (.readable []) "f" 1 5 =
      { succ := false,
        err_msg := str "Error: start_line " ++ str (toString (1 : Int)) ++
          str " is greater than end_line " ++
          str (toString ((List.length ([] : List Str)) : Int)) ++ str ".",
        file_path := "f", start_line := 1, end_line := 5, content := [] } :=
  c9_clamp_before_validation "f" 1 5 [] (by decide) (by decide) (by decide)

/-- C10: in the remote-attach mode a command's error text is concatenated
after its normal output in the single returned string — a failing debugger
command does not raise and has no separate error channel. -/
theorem c10_lldb_error_concat (t p : Option Bool) (r : Bool)
    (ret : SBCommandReturnObject) (cmd : String) :
    LLDBRRController.run_command ⟨some true, t, p, r⟩ ret cmd =
      .ok (RRController.truncate_output (ret.output ++ ret.error)) :=
  lldb_run_command_eq _ ret cmd rfl

end RRMCP
